import Mathlib

/-!
Shallow embedding of the ingestion/store/dispatch core of the zihuan-next
bot adapter (src/bot_adapter/adapter.rs, src/bot_adapter/event.rs,
src/util/url_utils.rs), together with theorems settling the frozen claims.

Machine integers (i64) are modelled as `Int`; no overflow occurs in the
modelled code paths (ids are only converted to strings). Wall-clock time
(`Local::now()`) is modelled as an explicit `Nat` parameter. Rust `String`
is Lean `String`; `Option`/`Result` map to `Option`/`Except`.
-/

/-! ## Message segments and events (bot_adapter/models) -/

/-- A message segment. Mirrors `Message` in src/bot_adapter/models/message.rs
(variants `PlainText(PlainTextMessage { text })`, `At(AtMessage { target })`,
`Reply(ReplyMessage { id, .. })`), as used by pattern matches in
src/bot_adapter/event.rs:50 and src/llm/agent/brain.rs:44-48. -/
inductive Message where
  | PlainText (text : String)
  | At (target : Option Int)
  | Reply (id : Int)
  deriving DecidableEq, Repr

/-- Modelled from the spec: the `Display` rendering used by `m.to_string()`
in src/bot_adapter/event.rs:14 (the `Display` impl lives in the missing
src/bot_adapter/models/message.rs). The spec renders PlainText and Reply
segments "to text" and gives At segments no contribution to `content`, so a
PlainText segment renders as its text, a Reply as the decimal form of the
referenced message id, and an At segment as the empty string. -/
def Message.render : Message → String
  | .PlainText text => text
  | .At _ => ""
  | .Reply id => toString id

/-- Message type enumeration (`MessageType` in the models module). -/
inductive MessageType where
  | Private
  | Group
  deriving DecidableEq, Repr

/-- Sender info: `{user_id, nickname, card}` (spec §6 inbound schema). -/
structure Sender where
  user_id : Int
  nickname : String
  card : String
  deriving DecidableEq, Repr

/-- The decoded event handed to `process_message`. Mirrors `MessageEvent` as
constructed in src/bot_adapter/adapter.rs:278-286. -/
structure MessageEvent where
  message_id : Int
  message_type : MessageType
  sender : Sender
  message_list : List Message
  group_id : Option Int
  group_name : Option String
  is_group_message : Bool
  deriving DecidableEq, Repr

/-- The raw deserialized event (`RawMessageEvent`), spec §6 schema. -/
structure RawMessageEvent where
  message_id : Int
  message_type : MessageType
  sender : Sender
  message : List Message
  group_id : Option Int
  group_name : Option String
  deriving DecidableEq, Repr

/-- Construction of the `MessageEvent` from the raw event,
src/bot_adapter/adapter.rs:278-286: `is_group_message` is
`matches!(raw_event.message_type, MessageType::Group)`. -/
def mkMessageEvent (raw : RawMessageEvent) : MessageEvent :=
  { message_id := raw.message_id
    message_type := raw.message_type
    sender := raw.sender
    message_list := raw.message
    group_id := raw.group_id
    group_name := raw.group_name
    is_group_message :=
      match raw.message_type with
      | .Group => true
      | .Private => false }

/-! ## The stored record (util/message_store::MessageRecord) -/

/-- The durable projection of an event, populated at
src/bot_adapter/event.rs:73-82. `send_time` models the
`Local::now().naive_local()` wall-clock value. -/
structure MessageRecord where
  message_id : String
  sender_id : String
  sender_name : String
  send_time : Nat
  group_id : Option String
  group_name : Option String
  content : String
  at_target_list : Option String
  deriving DecidableEq, Repr

/-- Sender-name selection, src/bot_adapter/event.rs:40-44: the group card
when this is a group message and the card is non-empty, else the nickname. -/
def senderName (e : MessageEvent) : String :=
  if e.is_group_message && !(e.sender.card.isEmpty) then
    e.sender.card
  else
    e.sender.nickname

/-- At-target extraction, src/bot_adapter/event.rs:47-70: for group messages
the comma-join of the present At targets (None when empty); for private
messages the bot's own id. -/
def atTargetList (bot_id : String) (e : MessageEvent) : Option String :=
  if e.is_group_message then
    let at_list : List String :=
      e.message_list.filterMap fun m =>
        match m with
        | .At target => target.map toString
        | _ => none
    if at_list.isEmpty then none else some (String.intercalate "," at_list)
  else
    some bot_id

/-- Record derivation, src/bot_adapter/event.rs:13-15 and 73-82: `content`
joins every segment's rendering with single spaces (`messages.join(" ")`
over `map(|m| m.to_string())`). -/
def mkRecord (bot_id : String) (e : MessageEvent) (now : Nat) : MessageRecord :=
  { message_id := toString e.message_id
    sender_id := toString e.sender.user_id
    sender_name := senderName e
    send_time := now
    group_id := e.group_id.map toString
    group_name := e.group_name
    content := String.intercalate " " (e.message_list.map Message.render)
    at_target_list := atTargetList bot_id e }

/-! ## Spec-side restatements used for refinement comparison -/

/-- Spec-side predicate: segments the spec says contribute to `content`
(PlainText and Reply, not At). -/
def isTextOrReply : Message → Bool
  | .PlainText _ => true
  | .Reply _ => true
  | .At _ => false

/-- Spec-side content: "all PlainText/Reply segments rendered to text and
space-joined" (spec §3), i.e. only those segments, joined with single
spaces in segment order. -/
def contentSpec (e : MessageEvent) : String :=
  String.intercalate " " ((e.message_list.filter isTextOrReply).map Message.render)

/-- Spec-side list of resolvable At targets: "target ids of the At segments
whose target is present", rendered in decimal, in segment order. -/
def resolvableAtTargets (e : MessageEvent) : List String :=
  e.message_list.filterMap fun m =>
    match m with
    | .At (some t) => some (toString t)
    | _ => none

/-! ## Adapter state and the dispatch trace (bot_adapter/event.rs) -/

/-- The shared adapter state read by `process_message`: bot identity
(`get_bot_id`, adapter.rs:156-162), the registered handlers in registration
order (`event_handlers`, adapter.rs:99), and the optional brain agent
(adapter.rs:98). Handler bodies are opaque closures; each is modelled by an
identity `Nat`. A brain agent is modelled by whether its `on_event` returns
an error (`Bool`). -/
structure BotAdapter where
  bot_id : String
  handlers : List Nat
  brain_agent : Option Bool
  deriving DecidableEq, Repr

/-- Handler registration, src/bot_adapter/adapter.rs:176-178: pushes onto
the ordered list. -/
def register_event_handler (a : BotAdapter) (h : Nat) : BotAdapter :=
  { a with handlers := a.handlers ++ [h] }

/-- One observable action of the dispatch task (`process_message`),
in program order. -/
inductive DispatchAction where
  | logInfo
  | persistRecord (message_id : String)
  | persistFailLog
  | persistOkDebug
  | invokeHandler (h : Nat)
  | spawnBrainTask
  | brainErrorLog
  deriving DecidableEq, Repr

/-- The sequential handler loop, src/bot_adapter/event.rs:96-98: each
registered handler is awaited in turn. -/
def runHandlers : List Nat → List DispatchAction
  | [] => []
  | h :: rest => .invokeHandler h :: runHandlers rest

/-- The trace of the brain-agent task spawned at
src/bot_adapter/event.rs:105-113: it runs in its own task; a failure of
`on_event` is only logged there. -/
def brainTaskTrace (fails : Bool) : List DispatchAction :=
  if fails then [.brainErrorLog] else []

/-- `process_message`, src/bot_adapter/event.rs:12-114, as the derived
record plus the ordered action trace of the dispatch task: the info log
(lines 18-37), the awaited `store_message_record` call with its error or
debug log (lines 84-89), then every registered handler sequentially
(lines 91-98), then the spawn of the brain-agent task when one is
configured (lines 100-113). `persistOk` is the `Result` of
`store_message_record` (the store backends are external I/O). -/
def process_message (a : BotAdapter) (e : MessageEvent) (now : Nat)
    (persistOk : Bool) : MessageRecord × List DispatchAction :=
  let record := mkRecord a.bot_id e now
  (record,
    .logInfo ::
    .persistRecord record.message_id ::
    (if persistOk then DispatchAction.persistOkDebug else .persistFailLog) ::
    (runHandlers a.handlers ++
      match a.brain_agent with
      | some _ => [.spawnBrainTask]
      | none => []))

/-- Recognizer for handler invocations in a dispatch trace. -/
def isHandlerInvoke : DispatchAction → Bool
  | .invokeHandler _ => true
  | _ => false

/-! ## URL host extraction (util/url_utils.rs) -/

/-- `str::strip_prefix` on character lists: `some` of the remainder when
the first argument leads the second, else `none`. -/
def dropLeading : List Char → List Char → Option (List Char)
  | [], s => some s
  | _ :: _, [] => none
  | p :: ps, c :: cs => if p = c then dropLeading ps cs else none

/-- `s.split(c).next()`: the part of `s` before the first occurrence of
`c` (the whole of `s` when `c` is absent); always `some`. -/
def splitFirst (c : Char) (s : String) : Option String :=
  some ⟨s.data.takeWhile (· ≠ c)⟩

/-- `extract_host`, src/util/url_utils.rs:2-7: strip a `ws://` or `wss://`
scheme, then keep only what precedes the first `/`, then only what
precedes the first `:`. -/
def extract_host (url : String) : Option String :=
  ((dropLeading "ws://".data url.data).orElse
      (fun _ => dropLeading "wss://".data url.data)).map (fun l => (⟨l⟩ : String))
    |>.bind (splitFirst '/')
    |>.bind (splitFirst ':')

/-- The `Host` header value of the upgrade request,
src/bot_adapter/adapter.rs:199: `extract_host(&url).unwrap_or("localhost")`. -/
def hostHeader (url : String) : String :=
  (extract_host url).getD "localhost"

/-- Whether a string begins with the given scheme tag (used to phrase the
claims' "beginning with ws:// or wss://"). -/
def beginsWith (p s : String) : Bool :=
  (dropLeading p.data s.data).isSome

/-- Spec-side host derivation for a URL whose scheme prefix was already
stripped: remove the path suffix (first `/` onward), then the port suffix
(first `:` onward). -/
def hostSpecOf (rest : String) : String :=
  ⟨((rest.data.takeWhile (· ≠ '/')).takeWhile (· ≠ ':'))⟩

/-! ## JSON values and event decoding (bot_adapter/adapter.rs::process_event) -/

/-- A JSON value (the shape `serde_json::Value` takes for the frames the
decoder inspects; numbers are the i64 values of the schema). -/
inductive Json where
  | null
  | bool (b : Bool)
  | num (n : Int)
  | str (s : String)
  | arr (items : List Json)
  | obj (fields : List (String × Json))

/-- `serde_json::Value::get(key)`: field lookup on an object, `none` on any
other value. -/
def Json.getField (j : Json) (k : String) : Option Json :=
  match j with
  | .obj fields => fields.lookup k
  | _ => none

/-- The i64 carried by a JSON number, if any. -/
def Json.asInt : Json → Option Int
  | .num n => some n
  | _ => none

/-- The string carried by a JSON string, if any. -/
def Json.asStr : Json → Option String
  | .str s => some s
  | _ => none

/-- Modelled from the spec: serde decoding of `message_type`
("private" | "group", spec §6) — the derive lives in the missing
src/bot_adapter/models/event_model.rs. -/
def parseMessageType (j : Json) : Option MessageType :=
  match j.asStr with
  | some "private" => some .Private
  | some "group" => some .Group
  | _ => none

/-- Modelled from the spec: serde decoding of one message segment, tagged
by `type` — `{"type":"text","text":s}`, `{"type":"at","target":t|null}`,
`{"type":"reply","id":n}` (spec §6); an absent or null optional `target`
decodes to `none`, any other shape fails. -/
def parseSegment (j : Json) : Option Message :=
  match j.getField "type" with
  | some (.str "text") => ((j.getField "text").bind Json.asStr).map .PlainText
  | some (.str "at") =>
    match j.getField "target" with
    | none => some (.At none)
    | some .null => some (.At none)
    | some v => (v.asInt).map (fun t => .At (some t))
  | some (.str "reply") => ((j.getField "id").bind Json.asInt).map .Reply
  | _ => none

/-- Decoding of an optional i64 field (absent or null gives `none`). -/
def parseOptInt (v : Option Json) : Option (Option Int) :=
  match v with
  | none => some none
  | some .null => some none
  | some (.num n) => some (some n)
  | some _ => none

/-- Decoding of an optional string field (absent or null gives `none`). -/
def parseOptStr (v : Option Json) : Option (Option String) :=
  match v with
  | none => some none
  | some .null => some none
  | some (.str s) => some (some s)
  | some _ => none

/-- Modelled from the spec: serde decoding of the `sender` object
(spec §6: user_id, nickname, card). -/
def parseSender (j : Json) : Option Sender :=
  match (j.getField "user_id").bind Json.asInt,
      (j.getField "nickname").bind Json.asStr,
      (j.getField "card").bind Json.asStr with
  | some uid, some nick, some card =>
    some { user_id := uid, nickname := nick, card := card }
  | _, _, _ => none

/-- Modelled from the spec: serde decoding of a whole `RawMessageEvent`
(spec §6 inbound schema; the derive lives in the missing
src/bot_adapter/models/event_model.rs). Required fields must decode;
`group_id`/`group_name` are optional. -/
def parseRawMessageEvent (j : Json) : Option RawMessageEvent :=
  match (j.getField "message_id").bind Json.asInt,
      (j.getField "message_type").bind parseMessageType,
      (j.getField "sender").bind parseSender,
      (j.getField "message") with
  | some mid, some mt, some snd, some (.arr items) =>
    match items.mapM parseSegment, parseOptInt (j.getField "group_id"),
        parseOptStr (j.getField "group_name") with
    | some msgs, some gid, some gname =>
      some { message_id := mid, message_type := mt, sender := snd,
             message := msgs, group_id := gid, group_name := gname }
    | _, _, _ => none
  | _, _, _, _ => none

/-- One observable effect of `process_event`
(src/bot_adapter/adapter.rs:250-307), in program order. -/
inductive ProcEffect where
  | errorParseLog
  | debugIgnoreLog
  | errorSchemaLog
  | spawnRawStore (key : String) (raw : RawMessageEvent)
  | spawnDispatch (e : MessageEvent)
  deriving DecidableEq, Repr

/-- `process_event`, src/bot_adapter/adapter.rs:250-307, over the outcome
of `serde_json::from_str` (`none` = parse failure): a parse failure is an
error log; a value without a `message_type` field is ignored with a debug
log; a schema mismatch is an error log; otherwise one task storing the raw
event under the decimal `message_id` key is spawned (the stored value is
the re-serialized raw event) and one dispatch task is spawned. -/
def process_event (parsed : Option Json) : List ProcEffect :=
  match parsed with
  | none => [.errorParseLog]
  | some j =>
    if (j.getField "message_type").isNone then
      [.debugIgnoreLog]
    else
      match parseRawMessageEvent j with
      | none => [.errorSchemaLog]
      | some raw =>
        [.spawnRawStore (toString raw.message_id) raw,
         .spawnDispatch (mkMessageEvent raw)]

/-! ## The read loop and `start` (bot_adapter/adapter.rs:185-247) -/

/-- One frame read from the streamed connection, or a transport error.
A binary frame carries the outcome of UTF-8 decoding its bytes. -/
inductive FrameResult where
  | text (s : String)
  | binary (utf8 : Option String)
  | close
  | ping
  | pong
  | frame
  | err (e : String)
  deriving DecidableEq, Repr

/-- One observable effect of the read loop. -/
inductive LoopEffect where
  | dispatched (text : String)
  | warnInvalidUtf8
  | infoClosed
  | errorTransportLog (e : String)
  deriving DecidableEq, Repr

/-- The read loop, src/bot_adapter/adapter.rs:215-244: text and
UTF-8-decodable binary frames are handed to `process_event`; a
non-UTF-8 binary frame is warned about; a close frame logs and breaks;
ping/pong/raw frames are ignored; a transport error logs and breaks. -/
def readLoop : List FrameResult → List LoopEffect
  | [] => []
  | .text s :: rest => .dispatched s :: readLoop rest
  | .binary (some s) :: rest => .dispatched s :: readLoop rest
  | .binary none :: rest => .warnInvalidUtf8 :: readLoop rest
  | .close :: _ => [.infoClosed]
  | .ping :: rest => readLoop rest
  | .pong :: rest => readLoop rest
  | .frame :: rest => readLoop rest
  | .err e :: _ => [.errorTransportLog e]

/-- `BotAdapter::start`, src/bot_adapter/adapter.rs:185-247, over the
outcome of the upgrade handshake (`connect_async` and the request build,
lines 196-209; an error there propagates via `?`) and the sequence of
frame reads: after a successful handshake the read loop runs to
completion and `start` returns `Ok(())` (line 246) whatever the loop
encountered. The returned effects are the loop's observable effects. -/
def start (handshake : Except String Unit) (frames : List FrameResult) :
    Except String (List LoopEffect) :=
  match handshake with
  | .error e => .error e
  | .ok () => .ok (readLoop frames)

/-! ## The in-memory store tier (util/message_store.rs, spec-modelled) -/

/-- Modelled from the spec: the in-memory tier of the tiered store
(src/util/message_store.rs is not under src/; only its tests and callers
are). The memory map is modelled as an association list with the newest
binding first; `get` reads memory first and memory is authoritative within
one process lifetime (spec §4.1). -/
def MemStore := List (String × String)

/-- `store_message` on the memory tier: insert/overwrite the binding. -/
def store_message (s : MemStore) (k v : String) : MemStore :=
  (k, v) :: s

/-- `get_message` on the memory tier: the most recent binding for the key. -/
def get_message (s : MemStore) (k : String) : Option String :=
  List.lookup k s

/-! ## Sample inputs used by witnesses and counterexamples -/

/-- A concrete private event: the spec §8 end-to-end scenario input. -/
def samplePrivateEvent : MessageEvent :=
  { message_id := 123
    message_type := .Private
    sender := { user_id := 111, nickname := "Alice", card := "" }
    message_list := [.PlainText "hi"]
    group_id := none
    group_name := none
    is_group_message := false }

/-- A concrete group event whose segments include a resolvable At target
(the spec §8 group at-target scenario, with a non-empty sender card). -/
def sampleGroupEvent : MessageEvent :=
  { message_id := 5
    message_type := .Group
    sender := { user_id := 111, nickname := "Alice", card := "boss" }
    message_list := [.PlainText "hi", .At (some 222)]
    group_id := some 9
    group_name := some "g"
    is_group_message := true }

/-- A concrete adapter state with one registered handler and no brain agent. -/
def sampleAdapter : BotAdapter :=
  { bot_id := "10", handlers := [7], brain_agent := none }

/-! ## Helper lemmas -/

/-- Stripping a leading run that is literally there succeeds with the rest. -/
theorem dropLeading_append (p s : List Char) : dropLeading p (p ++ s) = some s := by
  induction p with
  | nil => rfl
  | cons c cs ih => simp [dropLeading, ih]

/-- The sequential handler loop invokes exactly the registered handlers,
in order. -/
theorem runHandlers_eq_map (hs : List Nat) :
    runHandlers hs = hs.map DispatchAction.invokeHandler := by
  induction hs with
  | nil => rfl
  | cons h rest ih => simp [runHandlers, ih]

/-- The at-target extraction of event.rs computes exactly the spec-side
resolvable-target list. -/
theorem filterMap_at_eq_resolvable (e : MessageEvent) :
    (e.message_list.filterMap fun m =>
      match m with
      | .At target => target.map toString
      | _ => none) = resolvableAtTargets e := by
  unfold resolvableAtTargets
  apply List.filterMap_congr
  intro m _
  match m with
  | .PlainText _ => rfl
  | .Reply _ => rfl
  | .At none => rfl
  | .At (some _) => rfl

/-! ## Claims -/

/-- Claim C8: on the in-memory tier, `put(k, v1)` followed by `get(k)`
returns `Some(v1)`, and `put(k, v1)` then `put(k, v2)` then `get(k)`
returns `Some(v2)` — last-write-wins within one process lifetime, from any
starting store state. -/
theorem c8_store_round_trip_overwrite (s : MemStore) (k v1 v2 : String) :
    get_message (store_message s k v1) k = some v1 ∧
    get_message (store_message (store_message s k v1) k v2) k = some v2 := by
  constructor <;> simp [get_message, store_message, List.lookup]

/-- Claim C9: for every target URL beginning with `ws://` or `wss://`, the
`Host` header of the upgrade request is the URL with the scheme stripped,
then the path suffix (first `/` onward) removed, then the port suffix
(first `:` onward) removed. -/
theorem c9_host_header (rest : String) :
    hostHeader ("ws://" ++ rest) = hostSpecOf rest ∧
    hostHeader ("wss://" ++ rest) = hostSpecOf rest :=
  ⟨rfl, rfl⟩

/-- Claim C10: for every target URL that does not begin with `ws://` or
`wss://`, `extract_host` returns `none` and the upgrade request's `Host`
header silently falls back to the literal `"localhost"`. -/
theorem c10_host_fallback (url : String)
    (h1 : beginsWith "ws://" url = false)
    (h2 : beginsWith "wss://" url = false) :
    extract_host url = none ∧ hostHeader url = "localhost" := by
  unfold beginsWith at h1 h2
  have e1 : dropLeading "ws://".data url.data = none := by
    cases h : dropLeading "ws://".data url.data with
    | none => rfl
    | some v => rw [h] at h1; simp at h1
  have e2 : dropLeading "wss://".data url.data = none := by
    cases h : dropLeading "wss://".data url.data with
    | none => rfl
    | some v => rw [h] at h2; simp at h2
  constructor <;> simp [extract_host, hostHeader, e1, e2, Option.orElse]

/-- Witness for C10 at the concrete URL `http://example.com`. -/
theorem c10_host_fallback_witness :
    extract_host "http://example.com" = none ∧
    hostHeader "http://example.com" = "localhost" :=
  c10_host_fallback "http://example.com" (by decide) (by decide)

/-- Claim C3 counterexample: after a successful handshake, a transport
read error makes the read loop exit, yet `start` returns `Ok` — the error
is logged, not surfaced as an error result. -/
theorem c3_counterexample :
    start (Except.ok ()) [FrameResult.err "connection reset"] =
      Except.ok [LoopEffect.errorTransportLog "connection reset"] := rfl

/-- Claim C3 as amended: a handshake failure is surfaced to the caller of
`start` as an error result; a read error on the established connection
terminates the read loop (no later frame is processed) and is only logged,
with `start` returning `Ok`. -/
theorem c3_amended :
    (∀ (e : String) (frames : List FrameResult),
      start (Except.error e) frames = Except.error e) ∧
    (∀ frames : List FrameResult,
      start (Except.ok ()) frames = Except.ok (readLoop frames)) ∧
    (∀ (e : String) (rest : List FrameResult),
      readLoop (FrameResult.err e :: rest) = [LoopEffect.errorTransportLog e]) :=
  ⟨fun _ _ => rfl, fun _ => rfl, fun _ _ => rfl⟩

/-- Claim C6: a frame whose text parses as a JSON object lacking a
`message_type` field produces exactly one debug-level "ignoring" log:
no store write is spawned, no dispatch is spawned, and no warning or
error is logged. -/
theorem c6_non_event_ignored (fields : List (String × Json))
    (h : fields.lookup "message_type" = none) :
    process_event (some (Json.obj fields)) = [ProcEffect.debugIgnoreLog] := by
  simp [process_event, Json.getField, h]

/-- Witness for C6 at a concrete control frame `{"post_type":"meta_event"}`. -/
theorem c6_non_event_ignored_witness :
    process_event (some (Json.obj [("post_type", Json.str "meta_event")])) =
      [ProcEffect.debugIgnoreLog] :=
  c6_non_event_ignored [("post_type", Json.str "meta_event")] rfl

/-- Claim C7: the derived record's sender name is the sender's card when
the event is a group message and the card is non-empty, else the sender's
nickname (for events whose `is_group_message` flag matches their
`message_type`, as `process_event` constructs them). -/
theorem c7_sender_name (e : MessageEvent)
    (h : e.is_group_message = decide (e.message_type = MessageType.Group)) :
    senderName e =
      if e.message_type = MessageType.Group ∧ e.sender.card ≠ "" then
        e.sender.card
      else
        e.sender.nickname := by
  unfold senderName
  rw [h]
  rcases e.message_type with _ | _
  · simp
  · by_cases hc : e.sender.card = ""
    · simp [hc, String.isEmpty_iff]
    · simp [hc, String.isEmpty_iff]

/-- Witness for C7 at a concrete group event with a non-empty card. -/
theorem c7_sender_name_witness : senderName sampleGroupEvent = "boss" := by
  have h := c7_sender_name sampleGroupEvent (by decide)
  simpa using h

/-- Claim C1: the derived record's at-target list is `some` bot id for
private events; for group events it is `some` of the comma-join of the At
segments' present targets, and `none` when no At segment has a resolvable
target (for events whose `is_group_message` flag matches their
`message_type`, as `process_event` constructs them). -/
theorem c1_at_target_list (bot : String) (e : MessageEvent)
    (h : e.is_group_message = decide (e.message_type = MessageType.Group)) :
    (e.message_type = MessageType.Private → atTargetList bot e = some bot) ∧
    (e.message_type = MessageType.Group →
      atTargetList bot e =
        if resolvableAtTargets e = [] then none
        else some (String.intercalate "," (resolvableAtTargets e))) := by
  unfold atTargetList
  rw [h, filterMap_at_eq_resolvable]
  constructor
  · intro hp
    rw [hp]
    simp
  · intro hg
    rw [hg]
    rcases hr : resolvableAtTargets e with _ | ⟨t, ts⟩ <;> simp [hr]

/-- Witness for C1: the group event with an At segment targeting 222
yields `some "222"`, per the spec §8 group at-target scenario. -/
theorem c1_at_target_list_witness :
    atTargetList "10" sampleGroupEvent = some "222" := by
  have h := (c1_at_target_list "10" sampleGroupEvent (by decide)).2 (by decide)
  simpa using h

/-- Claim C5: within one dispatch, the registered handlers are invoked
exactly once each, sequentially, in registration order — whatever the
brain-agent configuration and whatever the persistence outcome. -/
theorem c5_handler_order (a : BotAdapter) (e : MessageEvent) (now : Nat)
    (persistOk : Bool) :
    ((process_message a e now persistOk).2).filter isHandlerInvoke =
      a.handlers.map DispatchAction.invokeHandler := by
  unfold process_message
  rw [runHandlers_eq_map]
  cases persistOk <;> rcases a.brain_agent with _ | b <;>
    simp [isHandlerInvoke, List.filter_append, List.filter_map, Function.comp] <;>
    exact congrArg _ (List.filter_eq_self.mpr fun _ _ => rfl)

/-- Claim C2 counterexample: at a concrete private event with one
registered handler, the dispatch trace places the `append_record`
persistence call and its completion (here: its failure log) strictly
before the handler invocation — the persistence is awaited, not a
fire-and-forget task racing the handler chain. -/
theorem c2_counterexample :
    (process_message sampleAdapter samplePrivateEvent 0 false).2 =
      [DispatchAction.logInfo, DispatchAction.persistRecord "123",
       DispatchAction.persistFailLog, DispatchAction.invokeHandler 7] := by
  decide

/-- Claim C2 as amended: the record-persistence call is awaited within the
dispatch task; it is guaranteed to have completed (with its success or
failure logged) before the first registered handler is invoked, and a
persistence failure is only logged — every registered handler still runs. -/
theorem c2_amended (a : BotAdapter) (e : MessageEvent) (now : Nat)
    (persistOk : Bool) :
    (∀ j hh,
      ((process_message a e now persistOk).2).get? j =
          some (DispatchAction.invokeHandler hh) →
      ∃ i k, i < j ∧ k < j ∧
        ((process_message a e now persistOk).2).get? i =
          some (DispatchAction.persistRecord (toString e.message_id)) ∧
        ((process_message a e now persistOk).2).get? k =
          some (if persistOk then DispatchAction.persistOkDebug
                else DispatchAction.persistFailLog)) ∧
    (∀ hh ∈ a.handlers,
      DispatchAction.invokeHandler hh ∈ (process_message a e now persistOk).2) := by
  constructor
  · intro j hh hj
    match j with
    | 0 => simp [process_message] at hj
    | 1 => simp [process_message, mkRecord] at hj
    | 2 => cases persistOk <;> simp [process_message] at hj
    | (n + 3) =>
      refine ⟨1, 2, by omega, by omega, ?_, ?_⟩
      · simp [process_message, mkRecord]
      · cases persistOk <;> simp [process_message]
  · intro hh hmem
    have h1 : DispatchAction.invokeHandler hh ∈ runHandlers a.handlers := by
      rw [runHandlers_eq_map]
      exact List.mem_map_of_mem _ hmem
    exact List.mem_cons_of_mem _ (List.mem_cons_of_mem _ (List.mem_cons_of_mem _
      (List.mem_append_left _ h1)))

/-- Witness for C2 as amended, at the concrete trace of
`c2_counterexample`: the handler invocation at index 3 is preceded by the
persistence call and its failure log. -/
theorem c2_amended_witness :
    ∃ i k, i < 3 ∧ k < 3 ∧
      ((process_message sampleAdapter samplePrivateEvent 0 false).2).get? i =
        some (DispatchAction.persistRecord (toString samplePrivateEvent.message_id)) ∧
      ((process_message sampleAdapter samplePrivateEvent 0 false).2).get? k =
        some (if false then DispatchAction.persistOkDebug
              else DispatchAction.persistFailLog) :=
  (c2_amended sampleAdapter samplePrivateEvent 0 false).1 3 7 (by decide)

/-- Claim C4 counterexample: at a group event with segments
`[PlainText "hi", At 222]` the stored content is `"hi "` — the At segment
contributes an empty entry to the space-join — while the claim's
"PlainText and Reply segments only, space-joined" predicts `"hi"`. -/
theorem c4_counterexample :
    (mkRecord "10" sampleGroupEvent 0).content ≠ contentSpec sampleGroupEvent := by
  decide

/-- Claim C4 as amended: the stored content joins every segment's
rendering with single spaces, so it equals the space-join of the PlainText
and Reply segments' renderings whenever the event contains no At segment
(an At segment contributes an empty entry, introducing an extra space). -/
theorem c4_content (bot : String) (e : MessageEvent) (now : Nat)
    (h : ∀ m ∈ e.message_list, isTextOrReply m = true) :
    (mkRecord bot e now).content = contentSpec e := by
  unfold mkRecord contentSpec
  rw [List.filter_eq_self.mpr h]

/-- Witness for C4 as amended at the spec §8 end-to-end private event
(single PlainText segment). -/
theorem c4_content_witness :
    (mkRecord "10" samplePrivateEvent 0).content = contentSpec samplePrivateEvent :=
  c4_content "10" samplePrivateEvent 0 (by decide)
